import Mathlib

/-!
Shallow embedding of the mcp-server request-dispatch and provider layer
(src/mcp-server/src/{models,agents,gemini,handlers,main}.rs) and proofs of
the specification claims about it.

JSON values (serde_json::Value) are modelled by the inductive `Json` below,
with numbers as rationals.  The network is modelled by an explicit
`HttpOutcome` argument: the outcome of the single outbound HTTP call a
request performs (transport failure at send, failure reading the body, or a
status/body pair; the body carries its raw text together with its parse as
a `Json` value, `none` when the text is not valid JSON).  Wall-clock elapsed
time is an explicit `elapsed_ms` argument.  With those effects made
explicit, every handler is a total function, mirroring the Rust code
branch for branch.
-/

namespace McpServer

/-- A JSON value in the sense of serde_json::Value. Numbers are modelled as
rationals (the code only ever builds integer and decimal literals). -/
inductive Json where
  | null : Json
  | bool (b : Bool) : Json
  | num (q : ℚ) : Json
  | str (s : String) : Json
  | arr (elems : List Json) : Json
  | obj (fields : List (String × Json)) : Json

/-- First binding of a key in an object field list. -/
def Json.lookup : List (String × Json) → String → Option Json
  | [], _ => none
  | (k, v) :: rest, key => if k = key then some v else Json.lookup rest key

/-- Field access used by serde-style struct decoding: `none` when the value
is not an object or the field is missing. -/
def Json.getField : Json → String → Option Json
  | .obj fields, key => Json.lookup fields key
  | _, _ => none

/-- serde_json `value["key"]` indexing: Null when missing or not an object. -/
def Json.index (j : Json) (key : String) : Json :=
  match j with
  | .obj fields => (Json.lookup fields key).getD .null
  | _ => .null

/-- serde_json `value[i]` indexing: Null when out of range or not an array. -/
def Json.idx (j : Json) (i : Nat) : Json :=
  match j with
  | .arr elems => (elems.get? i).getD .null
  | _ => .null

/-- serde_json `as_str`. -/
def Json.asStr : Json → Option String
  | .str s => some s
  | _ => none

/-- serde_json `as_u64`: the number must be a nonnegative integer below 2^64. -/
def Json.as_u64 : Json → Option Nat
  | .num q => if q.den = 1 ∧ 0 ≤ q.num ∧ q.num < 2 ^ 64 then some q.num.toNat else none
  | _ => none

/-- A u32 decoded by serde: a nonnegative integer below 2^32. -/
def Json.asU32 : Json → Option Nat
  | .num q => if q.den = 1 ∧ 0 ≤ q.num ∧ q.num < 2 ^ 32 then some q.num.toNat else none
  | _ => none

/-- models.rs `Agent`. -/
structure Agent where
  id : String
  name : String
  description : String
  capabilities : List String
  model : String
  system_prompt : String

/-- models.rs `Message` (one conversation-history entry). -/
structure Message where
  role : String
  content : String

/-- models.rs `ProcessTextParams`. -/
structure ProcessTextParams where
  agent_id : String
  user_text : String
  conversation_history : Option (List Message)

/-- models.rs `ProcessingMetadata` (confidence, an f64 in the source, is
modelled as a rational; nothing ever computes with it). -/
structure ProcessingMetadata where
  model : String
  tokens_used : Option Nat
  processing_time_ms : Nat
  confidence : ℚ

/-- models.rs `ProcessTextResult`. -/
structure ProcessTextResult where
  agent_id : String
  reply_text : String
  metadata : ProcessingMetadata

/-- models.rs `JsonRpcRequest<serde_json::Value>`. -/
structure JsonRpcRequest where
  jsonrpc : String
  method : String
  params : Option Json
  id : Json

/-- models.rs `JsonRpcError`. -/
structure JsonRpcError where
  code : Int
  message : String
  data : Option Json

/-- models.rs `JsonRpcResponse<serde_json::Value>`. -/
structure JsonRpcResponse where
  jsonrpc : String
  result : Option Json
  error : Option JsonRpcError
  id : Json

/-- models.rs `GeminiPart`. -/
structure GeminiPart where
  text : String

/-- models.rs `GeminiContent`. -/
structure GeminiContent where
  role : String
  parts : List GeminiPart

/-- models.rs `GeminiSystemInstruction`. -/
structure GeminiSystemInstruction where
  parts : List GeminiPart

/-- models.rs `GeminiRequest`. -/
structure GeminiRequest where
  contents : List GeminiContent
  system_instruction : Option GeminiSystemInstruction

/-- models.rs `GeminiCandidate`. -/
structure GeminiCandidate where
  content : GeminiContent

/-- models.rs `GeminiUsageMetadata` (all three token fields optional u32). -/
structure GeminiUsageMetadata where
  prompt_token_count : Option Nat
  candidates_token_count : Option Nat
  total_token_count : Option Nat

/-- models.rs `GeminiResponse`. -/
structure GeminiResponse where
  candidates : List GeminiCandidate
  usage_metadata : Option GeminiUsageMetadata

/-- main.rs `AppState` (the shared reqwest client is not modelled; the
network is an explicit `HttpOutcome` argument instead). -/
structure AppState where
  gemini_api_key : String
  use_groq : Bool

/-- The outcome of the single outbound HTTP call of a request: failure at
`send()`, failure at `text()`, or a status code with the raw body text and
its parse as JSON (`none` when the text is not valid JSON). -/
inductive HttpOutcome where
  | sendError (e : String) : HttpOutcome
  | readError (e : String) : HttpOutcome
  | response (status : Nat) (raw : String) (body : Option Json) : HttpOutcome

/-- reqwest `StatusCode::is_success`: 2xx. -/
def statusIsSuccess (status : Nat) : Prop := 200 ≤ status ∧ status ≤ 299

instance (status : Nat) : Decidable (statusIsSuccess status) := by
  unfold statusIsSuccess; infer_instance

/-! ### serde decoding of request parameters

serde derive semantics for `ProcessTextParams` / `Message`: the value must
be an object, required fields must be present with the right type, unknown
fields are ignored, an `Option` field decodes `null` and absence to `None`. -/

/-- serde decode of a `Message` object: both fields required strings. -/
def decodeMessage (j : Json) : Option Message := do
  let role ← (j.getField "role").bind Json.asStr
  let content ← (j.getField "content").bind Json.asStr
  pure ⟨role, content⟩

/-- serde decode of `Option<Vec<Message>>` for a present field: `null` is
`None`, an array decodes elementwise, anything else fails. -/
def decodeHistoryField : Json → Option (Option (List Message))
  | .null => some none
  | .arr elems => (elems.mapM decodeMessage).map some
  | _ => none

/-- serde decode of `ProcessTextParams` from the request `params` value. -/
def decodeProcessTextParams (j : Json) : Option ProcessTextParams :=
  match j with
  | .obj _ => do
      let agent_id ← (j.getField "agent_id").bind Json.asStr
      let user_text ← (j.getField "user_text").bind Json.asStr
      let conversation_history ←
        match j.getField "conversation_history" with
        | none => some none
        | some hj => decodeHistoryField hj
      pure ⟨agent_id, user_text, conversation_history⟩
  | _ => none

/-! ### serde decoding of the Gemini response body -/

/-- serde decode of a `GeminiPart`: required string field `text`. -/
def decodeGeminiPart (j : Json) : Option GeminiPart :=
  ((j.getField "text").bind Json.asStr).map GeminiPart.mk

/-- serde decode of a `GeminiContent`: required `role` and `parts`. -/
def decodeGeminiContent (j : Json) : Option GeminiContent := do
  let role ← (j.getField "role").bind Json.asStr
  let parts ←
    match j.getField "parts" with
    | some (.arr elems) => elems.mapM decodeGeminiPart
    | _ => none
  pure ⟨role, parts⟩

/-- serde decode of a `GeminiCandidate`: required `content`. -/
def decodeGeminiCandidate (j : Json) : Option GeminiCandidate :=
  ((j.getField "content").bind decodeGeminiContent).map GeminiCandidate.mk

/-- serde decode of an `Option<u32>` field: absent or `null` is `None`,
a number is checked against the u32 range, anything else fails. -/
def decodeOptU32Field (j : Json) (key : String) : Option (Option Nat) :=
  match j.getField key with
  | none => some none
  | some .null => some none
  | some v => (v.asU32).map some

/-- serde decode of `GeminiUsageMetadata` (`rename_all = "camelCase"`). -/
def decodeGeminiUsageMetadata (j : Json) : Option GeminiUsageMetadata := do
  let p ← decodeOptU32Field j "promptTokenCount"
  let c ← decodeOptU32Field j "candidatesTokenCount"
  let t ← decodeOptU32Field j "totalTokenCount"
  pure ⟨p, c, t⟩

/-- serde decode of a `GeminiResponse`: required `candidates` array,
optional `usage_metadata` object. -/
def decodeGeminiResponse (j : Json) : Option GeminiResponse := do
  let candidates ←
    match j.getField "candidates" with
    | some (.arr elems) => elems.mapM decodeGeminiCandidate
    | _ => none
  let usage_metadata ←
    match j.getField "usage_metadata" with
    | none => some none
    | some .null => some none
    | some v => (decodeGeminiUsageMetadata v).map some
  pure ⟨candidates, usage_metadata⟩

/-! ### agents.rs -/

/-- First catalog entry of agents.rs `get_agents`. -/
def agent_001 : Agent :=
  { id := "agent_001"
    name := "General Assistant"
    description := "A helpful general-purpose AI assistant powered by Groq"
    capabilities := ["text", "conversation", "reasoning"]
    model := "mixtral-8x7b-32768"
    system_prompt := "You are a helpful, friendly, and knowledgeable AI assistant. Provide clear, accurate, and concise responses." }

/-- Second catalog entry of agents.rs `get_agents`. -/
def agent_002 : Agent :=
  { id := "agent_002"
    name := "Web3 Expert"
    description := "Specialized in blockchain, Web3, and cryptocurrency technologies"
    capabilities := ["web3", "crypto", "blockchain", "nft"]
    model := "mixtral-8x7b-32768"
    system_prompt := "You are a Web3 and blockchain expert. Help users understand cryptocurrency, NFTs, smart contracts, DeFi, and related technologies. Provide accurate technical information and practical guidance." }

/-- Third catalog entry of agents.rs `get_agents`. -/
def agent_003 : Agent :=
  { id := "agent_003"
    name := "Voice Specialist"
    description := "Optimized for natural voice conversations and audio interactions"
    capabilities := ["voice", "audio", "conversation"]
    model := "mixtral-8x7b-32768"
    system_prompt := "You are an AI assistant optimized for voice interactions. Respond in a natural, conversational tone suitable for speech. Keep responses concise and easy to understand when spoken aloud." }

/-- Fourth catalog entry of agents.rs `get_agents`. -/
def agent_004 : Agent :=
  { id := "agent_004"
    name := "Code Assistant"
    description := "Expert in programming, software development, and technical problem-solving"
    capabilities := ["coding", "debugging", "technical"]
    model := "mixtral-8x7b-32768"
    system_prompt := "You are an expert programming assistant. Help users with code, debugging, architecture, and technical decisions. Provide clear explanations and working code examples." }

/-- agents.rs `get_agents`: the fixed four-agent catalog. -/
def get_agents : List Agent := [agent_001, agent_002, agent_003, agent_004]

/-- agents.rs `find_agent_by_id`. -/
def find_agent_by_id (agent_id : String) : Option Agent :=
  get_agents.find? (fun a => a.id == agent_id)

/-! ### gemini.rs: wire-request construction -/

/-- The history-conversion loop of `process_with_gemini` (gemini.rs lines
56-70): role `user` stays `user`, role `assistant` becomes `model`, any
other role is skipped (`continue`). -/
def historyToGemini : List Message → List GeminiContent
  | [] => []
  | msg :: rest =>
    if msg.role = "user" then
      ⟨"user", [⟨msg.content⟩]⟩ :: historyToGemini rest
    else if msg.role = "assistant" then
      ⟨"model", [⟨msg.content⟩]⟩ :: historyToGemini rest
    else
      historyToGemini rest

/-- The `contents` list of the outbound Gemini request: converted history
followed by the current user message (gemini.rs lines 53-76). -/
def gemini_contents (user_text : String)
    (conversation_history : Option (List Message)) : List GeminiContent :=
  (match conversation_history with
   | some history => historyToGemini history
   | none => []) ++ [⟨"user", [⟨user_text⟩]⟩]

/-- The outbound Gemini request (gemini.rs lines 79-86): converted contents
plus the agent system prompt as the system instruction. -/
def gemini_request (agent : Agent) (user_text : String)
    (conversation_history : Option (List Message)) : GeminiRequest :=
  { contents := gemini_contents user_text conversation_history
    system_instruction := some ⟨[⟨agent.system_prompt⟩]⟩ }

/-- The Gemini endpoint URL (gemini.rs lines 89-92), parameterized by the
agent model. -/
def gemini_api_url (agent : Agent) : String :=
  "https://generativelanguage.googleapis.com/v1beta/models/" ++ agent.model
    ++ ":generateContent"

/-- The `messages` array of the outbound Groq request (gemini.rs lines
155-176): system prompt, then the history 1:1 with roles preserved, then
the current user message. -/
def groq_messages (agent : Agent) (user_text : String)
    (conversation_history : Option (List Message)) : List Json :=
  [Json.obj [("role", .str "system"), ("content", .str agent.system_prompt)]]
  ++ (match conversation_history with
      | some history =>
        history.map (fun m => Json.obj [("role", .str m.role), ("content", .str m.content)])
      | none => [])
  ++ [Json.obj [("role", .str "user"), ("content", .str user_text)]]

/-- The outbound Groq request body (gemini.rs lines 179-184). The model is
the hardcoded literal from the source, not the model of the agent descriptor. -/
def groq_request (agent : Agent) (user_text : String)
    (conversation_history : Option (List Message)) : Json :=
  Json.obj
    [ ("model", .str "llama-3.3-70b-versatile")
    , ("messages", .arr (groq_messages agent user_text conversation_history))
    , ("temperature", .num 0.7)
    , ("max_tokens", .num 1024) ]

/-- The Groq endpoint URL (gemini.rs line 186). -/
def groq_api_url : String := "https://api.groq.com/openai/v1/chat/completions"

/-! ### gemini.rs: response processing -/

/-- Reply-text extraction of `process_with_groq` (gemini.rs lines 222-225):
`choices[0].message.content` as a string, or the fixed fallback phrase. -/
def groq_reply_text (j : Json) : String :=
  ((((j.index "choices").idx 0).index "message").index "content").asStr.getD
    "Sorry, I couldn\x27t generate a response."

/-- Token extraction of `process_with_groq` (gemini.rs lines 228-230):
`usage.total_tokens` as u64, cast `as u32` (truncating). -/
def groq_tokens_used (j : Json) : Option Nat :=
  (((j.index "usage").index "total_tokens").as_u64).map (fun t => t % 2 ^ 32)

/-- gemini.rs `process_with_groq` given the outcome of posting
`groq_request` to `groq_api_url`: transport and read failures and non-2xx
statuses are errors carrying the format strings of the source; a body that is
not valid JSON is a parse error; any JSON body yields a success via
`groq_reply_text` / `groq_tokens_used`. -/
def process_with_groq (agent : Agent) (user_text : String)
    (conversation_history : Option (List Message)) (wire : HttpOutcome) :
    Except String (String × Option Nat) :=
  match wire with
  | .sendError e => .error ("Groq API request failed: " ++ e)
  | .readError e => .error ("Failed to read Groq response: " ++ e)
  | .response status raw body =>
    if ¬ statusIsSuccess status then
      .error ("Groq API error (" ++ toString status ++ "): " ++ raw)
    else
      match body with
      | none => .error ("Failed to parse Groq response. Raw: " ++ raw)
      | some j => .ok (groq_reply_text j, groq_tokens_used j)

/-- The Gemini branch of gemini.rs `process_with_gemini` (after the
`use_groq` early return), given the outcome of posting `gemini_request` to
`gemini_api_url`: transport and read failures and non-2xx statuses are
errors carrying the format strings of the source; a body that is not valid JSON
or does not decode as `GeminiResponse` is a parse error; otherwise the
reply is the first part of the first candidate, defaulting to the fixed
fallback phrase, with tokens from `usage_metadata.total_token_count`. -/
def process_with_gemini_api (agent : Agent) (user_text : String)
    (conversation_history : Option (List Message)) (wire : HttpOutcome) :
    Except String (String × Option Nat) :=
  match wire with
  | .sendError e => .error ("Gemini API request failed: " ++ e)
  | .readError e => .error ("Failed to read Gemini response: " ++ e)
  | .response status raw body =>
    if ¬ statusIsSuccess status then
      .error ("Gemini API error (" ++ toString status ++ "): " ++ raw)
    else
      match body.bind decodeGeminiResponse with
      | none => .error ("Failed to parse Gemini response. Raw: " ++ raw)
      | some gr =>
        let reply_text :=
          ((gr.candidates.head?.bind (fun c => c.content.parts.head?)).map
            GeminiPart.text).getD "Sorry, I couldn\x27t generate a response."
        let tokens_used := gr.usage_metadata.bind GeminiUsageMetadata.total_token_count
        .ok (reply_text, tokens_used)

/-- gemini.rs `process_with_gemini` (lines 41-51): dispatches on `use_groq`
to the Groq path, else runs the Gemini path. -/
def process_with_gemini (use_groq : Bool) (agent : Agent) (user_text : String)
    (conversation_history : Option (List Message)) (wire : HttpOutcome) :
    Except String (String × Option Nat) :=
  if use_groq then process_with_groq agent user_text conversation_history wire
  else process_with_gemini_api agent user_text conversation_history wire

/-! ### serde serialization of results (serde_json::to_value) -/

/-- serde serialize of an `Agent` (declaration field order). -/
def agentToJson (a : Agent) : Json :=
  .obj
    [ ("id", .str a.id)
    , ("name", .str a.name)
    , ("description", .str a.description)
    , ("capabilities", .arr (a.capabilities.map Json.str))
    , ("model", .str a.model)
    , ("system_prompt", .str a.system_prompt) ]

/-- serde serialize of a `ListAgentsResult`. -/
def listAgentsResultToJson (agents : List Agent) : Json :=
  .obj [("agents", .arr (agents.map agentToJson))]

/-- serde serialize of `ProcessingMetadata`; `tokens_used` has no skip
attribute in models.rs, so `None` serializes as `null`. -/
def processingMetadataToJson (m : ProcessingMetadata) : Json :=
  .obj
    [ ("model", .str m.model)
    , ("tokens_used", match m.tokens_used with
                      | some t => .num (t : ℚ)
                      | none => .null)
    , ("processing_time_ms", .num (m.processing_time_ms : ℚ))
    , ("confidence", .num m.confidence) ]

/-- serde serialize of a `ProcessTextResult`. -/
def processTextResultToJson (r : ProcessTextResult) : Json :=
  .obj
    [ ("agent_id", .str r.agent_id)
    , ("reply_text", .str r.reply_text)
    , ("metadata", processingMetadataToJson r.metadata) ]

/-! ### handlers.rs -/

/-- handlers.rs `handle_list_agents` (lines 79-91): always a result, never
an error. -/
def handle_list_agents (request : JsonRpcRequest) : JsonRpcResponse :=
  { jsonrpc := "2.0"
    result := some (listAgentsResultToJson get_agents)
    error := none
    id := request.id }

/-- handlers.rs `handle_process_text` (lines 119-220).  The serde error
text interpolated into the invalid-params message is abstracted to a fixed
description; the call into gemini.rs passes the `use_groq` flag of the state
(main.rs wires the flag into `AppState`, and gemini.rs dispatches on it).
`elapsed_ms` models `start_time.elapsed().as_millis() as u64`. -/
def handle_process_text (state : AppState) (request : JsonRpcRequest)
    (wire : HttpOutcome) (elapsed_ms : Nat) : JsonRpcResponse :=
  match request.params with
  | none =>
    { jsonrpc := "2.0"
      result := none
      error := some
        { code := -32602
          message := "Invalid params: agent_id and user_text are required"
          data := none }
      id := request.id }
  | some pj =>
    match decodeProcessTextParams pj with
    | none =>
      { jsonrpc := "2.0"
        result := none
        error := some
          { code := -32602
            message := "Invalid params: " ++ "deserialization failed"
            data := none }
        id := request.id }
    | some params =>
      match find_agent_by_id params.agent_id with
      | none =>
        { jsonrpc := "2.0"
          result := none
          error := some
            { code := -32602
              message := "Agent not found: " ++ params.agent_id
              data := none }
          id := request.id }
      | some agent =>
        match process_with_gemini state.use_groq agent params.user_text
            params.conversation_history wire with
        | .error err_msg =>
          { jsonrpc := "2.0"
            result := none
            error := some
              { code := -32603
                message := "Internal error: Gemini API processing failed"
                data := some (.obj [("details", .str err_msg)]) }
            id := request.id }
        | .ok (reply_text, tokens_used) =>
          { jsonrpc := "2.0"
            result := some (processTextResultToJson
              { agent_id := params.agent_id
                reply_text := reply_text
                metadata :=
                  { model := agent.model
                    tokens_used := tokens_used
                    processing_time_ms := elapsed_ms
                    confidence := 0.95 } })
            error := none
            id := request.id }

/-- handlers.rs `handle_jsonrpc` (lines 31-66): version check, then route
by method name.  Always returns a JSON-RPC response value (the axum
handler returns `Json<JsonRpcResponse>`, never an HTTP-level failure). -/
def handle_jsonrpc (state : AppState) (request : JsonRpcRequest)
    (wire : HttpOutcome) (elapsed_ms : Nat) : JsonRpcResponse :=
  if request.jsonrpc ≠ "2.0" then
    { jsonrpc := "2.0"
      result := none
      error := some
        { code := -32600
          message := "Invalid Request: jsonrpc must be \x272.0\x27"
          data := none }
      id := request.id }
  else
    match request.method with
    | "list_agents" => handle_list_agents request
    | "process_text" => handle_process_text state request wire elapsed_ms
    | _ =>
      { jsonrpc := "2.0"
        result := none
        error := some
          { code := -32601
            message := "Method not found: " ++ request.method
            data := none }
        id := request.id }

/-! ### main.rs: startup provider selection -/

/-- main.rs lines 90-102: the `(api_key, use_groq)` selection from the two
credential variables; `none` models the `panic!` (fatal startup failure). -/
def select_provider (groq_api_key : Option String)
    (gemini_api_key : Option String) : Option (String × Bool) :=
  match groq_api_key, gemini_api_key with
  | some groq_key, _ => some (groq_key, true)
  | none, some gemini_key => some (gemini_key, false)
  | none, none => none

/-! ### Helper lemmas -/

/-- Appending to a string of nonzero length never gives the empty string. -/
lemma append_ne_empty_left (s t : String) (h : s.length ≠ 0) : s ++ t ≠ "" := by
  intro hc
  have hl := congrArg String.length hc
  have h0 : ("" : String).length = 0 := rfl
  rw [String.length_append, h0] at hl
  omega

/-- Appending preserves nonzero length (left operand). -/
lemma append_length_ne_zero (s t : String) (h : s.length ≠ 0) :
    (s ++ t).length ≠ 0 := by
  rw [String.length_append]
  omega

/-- Every error string produced by either provider path is non-empty: each
error branch of gemini.rs prepends a fixed non-empty description. -/
lemma provider_error_ne_empty (use_groq : Bool) (agent : Agent)
    (user_text : String) (conversation_history : Option (List Message))
    (wire : HttpOutcome) (err : String)
    (he : process_with_gemini use_groq agent user_text conversation_history wire
            = .error err) : err ≠ "" := by
  unfold process_with_gemini process_with_groq process_with_gemini_api at he
  repeat' split at he
  all_goals
    first
      | (simp only [Except.error.injEq] at he; subst he;
         apply append_ne_empty_left;
         repeat' apply append_length_ne_zero
         decide)
      | simp at he

/-- Spec-side characterization of the fate of one history message in the
Fallback (Gemini) request: `user` kept as `user`, `assistant` remapped to
`model`, anything else dropped. -/
def geminiHistoryRole (m : Message) : Option GeminiContent :=
  if m.role = "user" then some ⟨"user", [⟨m.content⟩]⟩
  else if m.role = "assistant" then some ⟨"model", [⟨m.content⟩]⟩
  else none

/-- The history-conversion loop of gemini.rs is the `filterMap` of
`geminiHistoryRole`. -/
lemma historyToGemini_eq_filterMap (l : List Message) :
    historyToGemini l = l.filterMap geminiHistoryRole := by
  induction l with
  | nil => rfl
  | cons m rest ih =>
    by_cases hu : m.role = "user"
    · simp [historyToGemini, geminiHistoryRole, hu, ih]
    · by_cases ha : m.role = "assistant"
      · simp [historyToGemini, geminiHistoryRole, hu, ha, ih]
      · simp [historyToGemini, geminiHistoryRole, hu, ha, ih]

/-! ### Claim theorems -/

/-- C3: for every request and every outcome (success or any of the error
codes), the `id` field of the response equals the `id` field of the
request value-for-value.  The request `id` here is an arbitrary JSON value,
so null, number and string shapes are all covered. -/
theorem C3_id_roundtrip (state : AppState) (request : JsonRpcRequest)
    (wire : HttpOutcome) (elapsed_ms : Nat) :
    (handle_jsonrpc state request wire elapsed_ms).id = request.id := by
  unfold handle_jsonrpc handle_list_agents handle_process_text
  repeat' split
  all_goals rfl

/-- C4: every response envelope produced by the dispatcher, on every code
path of both methods, has exactly one of result/error populated — never
both, never neither. -/
theorem C4_exactly_one_result_or_error (state : AppState)
    (request : JsonRpcRequest) (wire : HttpOutcome) (elapsed_ms : Nat) :
    ((handle_jsonrpc state request wire elapsed_ms).result ≠ none ∧
      (handle_jsonrpc state request wire elapsed_ms).error = none) ∨
    ((handle_jsonrpc state request wire elapsed_ms).result = none ∧
      (handle_jsonrpc state request wire elapsed_ms).error ≠ none) := by
  unfold handle_jsonrpc handle_list_agents handle_process_text
  repeat' split
  all_goals simp

/-- C9: in the Fallback (Gemini) outbound request, each history message
with role "assistant" is remapped to provider role "model", each with role
"user" keeps role "user", and every other role is silently omitted —
without erroring and without aborting the request — with the relative
order of retained messages preserved: the contents are exactly the
`filterMap` of `geminiHistoryRole` over the history, followed by the
current user message. -/
theorem C9_history_role_mapping (agent : Agent) (user_text : String)
    (history : List Message) :
    ((gemini_request agent user_text (some history)).contents
        = history.filterMap geminiHistoryRole ++ [⟨"user", [⟨user_text⟩]⟩]) ∧
    (∀ m : Message, m.role = "assistant" →
        geminiHistoryRole m = some ⟨"model", [⟨m.content⟩]⟩) ∧
    (∀ m : Message, m.role = "user" →
        geminiHistoryRole m = some ⟨"user", [⟨m.content⟩]⟩) ∧
    (∀ m : Message, m.role ≠ "user" → m.role ≠ "assistant" →
        geminiHistoryRole m = none) := by
  refine ⟨?_, ?_, ?_, ?_⟩
  · simp [gemini_request, gemini_contents, historyToGemini_eq_filterMap]
  · intro m hm
    have hu : m.role ≠ "user" := by rw [hm]; decide
    simp [geminiHistoryRole, hm, hu]
  · intro m hm
    simp [geminiHistoryRole, hm]
  · intro m hu ha
    simp [geminiHistoryRole, hu, ha]

/-- C9 witness: the mapping at a concrete three-message history containing
a user, an assistant and an unrecognized role. -/
theorem C9_history_role_mapping_witness :
    ((gemini_request agent_001 "hi"
        (some [⟨"user", "a"⟩, ⟨"assistant", "b"⟩, ⟨"tool", "c"⟩])).contents
      = [⟨"user", [⟨"a"⟩]⟩, ⟨"model", [⟨"b"⟩]⟩, ⟨"user", [⟨"hi"⟩]⟩]) ∧
    geminiHistoryRole ⟨"tool", "c"⟩ = none := by
  constructor
  · exact ((C9_history_role_mapping agent_001 "hi"
      [⟨"user", "a"⟩, ⟨"assistant", "b"⟩, ⟨"tool", "c"⟩]).1).trans (by rfl)
  · exact (C9_history_role_mapping agent_001 "hi" []).2.2.2
      ⟨"tool", "c"⟩ (by decide) (by decide)

/-- Routing lemma: with a valid version and method "process_text" the
dispatcher defers to `handle_process_text`. -/
lemma handle_jsonrpc_process_text (state : AppState) (request : JsonRpcRequest)
    (wire : HttpOutcome) (elapsed_ms : Nat)
    (hv : request.jsonrpc = "2.0") (hm : request.method = "process_text") :
    handle_jsonrpc state request wire elapsed_ms
      = handle_process_text state request wire elapsed_ms := by
  unfold handle_jsonrpc
  rw [if_neg (by simp [hv])]
  split
  · next h => rw [hm] at h; simp at h
  · rfl
  · next h1 h2 => exact absurd hm h2

/-- C1: on the success path, the response carries a result (no error)
containing the agent_id of the request, the reply text of the provider unchanged,
metadata.model from the resolved agent descriptor, metadata.tokens_used
from the provider (None exactly when the provider returned none, the field
being optional in `ProcessingMetadata`), the elapsed processing time, and
the fixed placeholder confidence constant 0.95, independent of the input. -/
theorem C1_process_text_success (state : AppState) (request : JsonRpcRequest)
    (wire : HttpOutcome) (elapsed_ms : Nat) (pj : Json) (p : ProcessTextParams)
    (a : Agent) (reply_text : String) (tokens_used : Option Nat)
    (hp : request.params = some pj)
    (hd : decodeProcessTextParams pj = some p)
    (ha : find_agent_by_id p.agent_id = some a)
    (hok : process_with_gemini state.use_groq a p.user_text
             p.conversation_history wire = .ok (reply_text, tokens_used)) :
    handle_process_text state request wire elapsed_ms =
      { jsonrpc := "2.0"
        result := some (processTextResultToJson
          { agent_id := p.agent_id
            reply_text := reply_text
            metadata :=
              { model := a.model
                tokens_used := tokens_used
                processing_time_ms := elapsed_ms
                confidence := 0.95 } })
        error := none
        id := request.id } := by
  simp only [handle_process_text, hp, hd, ha, hok]

/-- C1 witness: a concrete success at agent_001 with reply "hi" and five
tokens reported by the provider. -/
theorem C1_process_text_success_witness :
    handle_process_text ⟨"key", true⟩
      { jsonrpc := "2.0", method := "process_text"
        params := some (.obj [("agent_id", .str "agent_001"),
                              ("user_text", .str "hello")])
        id := .num 1 }
      (.response 200 "raw" (some (.obj
        [("choices", .arr [.obj [("message", .obj [("content", .str "hi")])]]),
         ("usage", .obj [("total_tokens", .num 5)])])))
      3 =
    { jsonrpc := "2.0"
      result := some (processTextResultToJson
        { agent_id := "agent_001"
          reply_text := "hi"
          metadata :=
            { model := agent_001.model
              tokens_used := some 5
              processing_time_ms := 3
              confidence := 0.95 } })
      error := none
      id := .num 1 } :=
  C1_process_text_success ⟨"key", true⟩
    { jsonrpc := "2.0", method := "process_text"
      params := some (.obj [("agent_id", .str "agent_001"),
                            ("user_text", .str "hello")])
      id := .num 1 }
    (.response 200 "raw" (some (.obj
      [("choices", .arr [.obj [("message", .obj [("content", .str "hi")])]]),
       ("usage", .obj [("total_tokens", .num 5)])])))
    3
    (.obj [("agent_id", .str "agent_001"), ("user_text", .str "hello")])
    ⟨"agent_001", "hello", none⟩ agent_001 "hi" (some 5)
    rfl rfl rfl rfl

/-- C5: whenever the provider call fails, the error has code -32603, the
fixed generic message (a constant, so it carries no raw transport or auth
detail from the failure), and a structured data field whose details entry
is the underlying failure description, which is non-empty on every
provider failure path. -/
theorem C5_provider_failure_envelope (state : AppState)
    (request : JsonRpcRequest) (wire : HttpOutcome) (elapsed_ms : Nat)
    (pj : Json) (p : ProcessTextParams) (a : Agent) (err : String)
    (hp : request.params = some pj)
    (hd : decodeProcessTextParams pj = some p)
    (ha : find_agent_by_id p.agent_id = some a)
    (he : process_with_gemini state.use_groq a p.user_text
            p.conversation_history wire = .error err) :
    (handle_process_text state request wire elapsed_ms =
      { jsonrpc := "2.0"
        result := none
        error := some
          { code := -32603
            message := "Internal error: Gemini API processing failed"
            data := some (.obj [("details", .str err)]) }
        id := request.id }) ∧ err ≠ "" := by
  refine ⟨?_, provider_error_ne_empty _ _ _ _ _ _ he⟩
  simp only [handle_process_text, hp, hd, ha, he]

/-- C5 witness: a concrete transport failure of the Gemini path. -/
theorem C5_provider_failure_envelope_witness :
    (handle_process_text ⟨"key", false⟩
      { jsonrpc := "2.0", method := "process_text"
        params := some (.obj [("agent_id", .str "agent_001"),
                              ("user_text", .str "hello")])
        id := .str "req-7" }
      (.sendError "connection refused") 2 =
    { jsonrpc := "2.0"
      result := none
      error := some
        { code := -32603
          message := "Internal error: Gemini API processing failed"
          data := some (.obj [("details",
            .str "Gemini API request failed: connection refused")]) }
      id := .str "req-7" }) ∧
    ("Gemini API request failed: connection refused" : String) ≠ "" :=
  C5_provider_failure_envelope ⟨"key", false⟩
    { jsonrpc := "2.0", method := "process_text"
      params := some (.obj [("agent_id", .str "agent_001"),
                            ("user_text", .str "hello")])
      id := .str "req-7" }
    (.sendError "connection refused") 2
    (.obj [("agent_id", .str "agent_001"), ("user_text", .str "hello")])
    ⟨"agent_001", "hello", none⟩ agent_001
    "Gemini API request failed: connection refused"
    rfl rfl rfl rfl

/-- C2: the dispatcher maps each fault class to exactly its specified
error code, always as a JSON-RPC error object (result absent, error
present): a version other than "2.0" gives -32600; an unrecognized method
gives -32601; absent params, schema-mismatched params, or an unknown
agent_id give -32602; any provider failure gives -32603.  The dispatcher
is a total function into response envelopes, so none of these is an
HTTP-level failure. -/
theorem C2_error_code_mapping (state : AppState) (request : JsonRpcRequest)
    (wire : HttpOutcome) (elapsed_ms : Nat) :
    (request.jsonrpc ≠ "2.0" →
      (handle_jsonrpc state request wire elapsed_ms).result = none ∧
      ∃ e, (handle_jsonrpc state request wire elapsed_ms).error = some e ∧
        e.code = -32600) ∧
    (request.jsonrpc = "2.0" → request.method ≠ "list_agents" →
      request.method ≠ "process_text" →
      (handle_jsonrpc state request wire elapsed_ms).result = none ∧
      ∃ e, (handle_jsonrpc state request wire elapsed_ms).error = some e ∧
        e.code = -32601) ∧
    (request.jsonrpc = "2.0" → request.method = "process_text" →
      (request.params = none ∨
       (∃ pj, request.params = some pj ∧ decodeProcessTextParams pj = none) ∨
       (∃ pj p, request.params = some pj ∧ decodeProcessTextParams pj = some p ∧
          find_agent_by_id p.agent_id = none)) →
      (handle_jsonrpc state request wire elapsed_ms).result = none ∧
      ∃ e, (handle_jsonrpc state request wire elapsed_ms).error = some e ∧
        e.code = -32602) ∧
    (request.jsonrpc = "2.0" → request.method = "process_text" →
      ∀ pj p a err, request.params = some pj →
        decodeProcessTextParams pj = some p →
        find_agent_by_id p.agent_id = some a →
        process_with_gemini state.use_groq a p.user_text
          p.conversation_history wire = .error err →
      (handle_jsonrpc state request wire elapsed_ms).result = none ∧
      ∃ e, (handle_jsonrpc state request wire elapsed_ms).error = some e ∧
        e.code = -32603) := by
  refine ⟨?_, ?_, ?_, ?_⟩
  · intro hv
    simp only [handle_jsonrpc, if_pos hv]
    exact ⟨by trivial, _, by trivial, by trivial⟩
  · intro hv hl hp
    unfold handle_jsonrpc
    rw [if_neg (by simp [hv])]
    split
    · next h => exact absurd h hl
    · next h => exact absurd h hp
    · exact ⟨by trivial, _, by trivial, by trivial⟩
  · intro hv hm hcase
    rw [handle_jsonrpc_process_text state request wire elapsed_ms hv hm]
    rcases hcase with h | ⟨pj, hpj, hdec⟩ | ⟨pj, p, hpj, hdec, hfind⟩
    · simp only [handle_process_text, h]
      exact ⟨by trivial, _, by trivial, by trivial⟩
    · simp only [handle_process_text, hpj, hdec]
      exact ⟨by trivial, _, by trivial, by trivial⟩
    · simp only [handle_process_text, hpj, hdec, hfind]
      exact ⟨by trivial, _, by trivial, by trivial⟩
  · intro hv hm pj p a err hpj hdec hfind herr
    rw [handle_jsonrpc_process_text state request wire elapsed_ms hv hm]
    simp only [handle_process_text, hpj, hdec, hfind, herr]
    exact ⟨by trivial, _, by trivial, by trivial⟩

/-- C2 witness: the four fault classes at concrete requests — bad version,
unknown method, absent params, and a transport failure of the provider. -/
theorem C2_error_code_mapping_witness :
    ((handle_jsonrpc ⟨"k", true⟩
        { jsonrpc := "1.0", method := "process_text", params := none,
          id := .null }
        (.sendError "x") 0).result = none ∧
      ∃ e, (handle_jsonrpc ⟨"k", true⟩
        { jsonrpc := "1.0", method := "process_text", params := none,
          id := .null }
        (.sendError "x") 0).error = some e ∧ e.code = -32600) ∧
    ((handle_jsonrpc ⟨"k", true⟩
        { jsonrpc := "2.0", method := "make_coffee", params := none,
          id := .num 2 }
        (.sendError "x") 0).result = none ∧
      ∃ e, (handle_jsonrpc ⟨"k", true⟩
        { jsonrpc := "2.0", method := "make_coffee", params := none,
          id := .num 2 }
        (.sendError "x") 0).error = some e ∧ e.code = -32601) ∧
    ((handle_jsonrpc ⟨"k", true⟩
        { jsonrpc := "2.0", method := "process_text", params := none,
          id := .str "x" }
        (.sendError "x") 0).result = none ∧
      ∃ e, (handle_jsonrpc ⟨"k", true⟩
        { jsonrpc := "2.0", method := "process_text", params := none,
          id := .str "x" }
        (.sendError "x") 0).error = some e ∧ e.code = -32602) ∧
    ((handle_jsonrpc ⟨"k", true⟩
        { jsonrpc := "2.0", method := "process_text",
          params := some (.obj [("agent_id", .str "agent_001"),
                                ("user_text", .str "hello")]),
          id := .num 4 }
        (.sendError "boom") 0).result = none ∧
      ∃ e, (handle_jsonrpc ⟨"k", true⟩
        { jsonrpc := "2.0", method := "process_text",
          params := some (.obj [("agent_id", .str "agent_001"),
                                ("user_text", .str "hello")]),
          id := .num 4 }
        (.sendError "boom") 0).error = some e ∧ e.code = -32603) :=
  ⟨(C2_error_code_mapping ⟨"k", true⟩
      { jsonrpc := "1.0", method := "process_text", params := none,
        id := .null }
      (.sendError "x") 0).1 (by decide),
   (C2_error_code_mapping ⟨"k", true⟩
      { jsonrpc := "2.0", method := "make_coffee", params := none,
        id := .num 2 }
      (.sendError "x") 0).2.1 rfl (by decide) (by decide),
   (C2_error_code_mapping ⟨"k", true⟩
      { jsonrpc := "2.0", method := "process_text", params := none,
        id := .str "x" }
      (.sendError "x") 0).2.2.1 rfl rfl (Or.inl rfl),
   (C2_error_code_mapping ⟨"k", true⟩
      { jsonrpc := "2.0", method := "process_text",
        params := some (.obj [("agent_id", .str "agent_001"),
                              ("user_text", .str "hello")]),
        id := .num 4 }
      (.sendError "boom") 0).2.2.2 rfl rfl
      (.obj [("agent_id", .str "agent_001"), ("user_text", .str "hello")])
      ⟨"agent_001", "hello", none⟩ agent_001 "Groq API request failed: boom"
      rfl rfl rfl rfl⟩

/-- C6 counterexample: for a process_text request resolving agent_001, the
model string in the Primary (Groq) wire request is the hardcoded
"llama-3.3-70b-versatile", which differs from the model
field of the resolved descriptor "mixtral-8x7b-32768" — refuting the claim that the Primary
sends the model of the descriptor. -/
theorem C6_counterexample :
    find_agent_by_id "agent_001" = some agent_001 ∧
    (groq_request agent_001 "hello" none).index "model"
      = .str "llama-3.3-70b-versatile" ∧
    agent_001.model = "mixtral-8x7b-32768" ∧
    ("llama-3.3-70b-versatile" : String) ≠ "mixtral-8x7b-32768" :=
  ⟨rfl, rfl, rfl, by decide⟩

/-- C6 amended: the Fallback (Gemini) endpoint is parameterized by the
model field of the resolved descriptor, while the Primary (Groq) wire request
always carries the hardcoded model "llama-3.3-70b-versatile", independent
of the descriptor and of the rest of the request. -/
theorem C6_amended_wire_model (agent : Agent) (user_text : String)
    (conversation_history : Option (List Message)) :
    gemini_api_url agent
      = "https://generativelanguage.googleapis.com/v1beta/models/"
          ++ agent.model ++ ":generateContent" ∧
    (groq_request agent user_text conversation_history).index "model"
      = .str "llama-3.3-70b-versatile" :=
  ⟨rfl, rfl⟩

/-- C7 counterexample: a 2xx Groq response whose JSON body lacks
`choices[0].message.content` does not fail with a decode error; `complete`
succeeds with the fixed fallback phrase — refuting the claim. -/
theorem C7_counterexample :
    process_with_groq agent_001 "hello" none
      (.response 200 "ok-body" (some (.obj [("choices", .arr [])]))) =
    .ok ("Sorry, I couldn\x27t generate a response.", none) := rfl

/-- C7 amended: for the Primary (Groq) Provider on a 2xx status, a body
that parses as JSON yields a success: the reply is
`choices[0].message.content` when that is a string, and the fixed fallback
phrase when that field is absent (not a DecodeError); only a body that
fails to parse as JSON is a hard decode failure. -/
theorem C7_amended_groq_decode (agent : Agent) (user_text : String)
    (conversation_history : Option (List Message)) (status : Nat)
    (raw : String) (j : Json) (h2xx : statusIsSuccess status) :
    (∀ s, (((j.index "choices").idx 0).index "message").index "content" = .str s →
       process_with_groq agent user_text conversation_history
           (.response status raw (some j))
         = .ok (s, groq_tokens_used j)) ∧
    (((((j.index "choices").idx 0).index "message").index "content").asStr = none →
       process_with_groq agent user_text conversation_history
           (.response status raw (some j))
         = .ok ("Sorry, I couldn\x27t generate a response.", groq_tokens_used j)) ∧
    (process_with_groq agent user_text conversation_history
         (.response status raw none)
       = .error ("Failed to parse Groq response. Raw: " ++ raw)) := by
  refine ⟨?_, ?_, ?_⟩
  · intro s hs
    simp [process_with_groq, h2xx, groq_reply_text, hs, Json.asStr]
  · intro hs
    simp [process_with_groq, h2xx, groq_reply_text, hs]
  · simp [process_with_groq, h2xx]

/-- C7 amended witness: a concrete 2xx Groq body with a present content
field yields exactly that content as reply. -/
theorem C7_amended_groq_decode_witness :
    process_with_groq agent_001 "hello" none
      (.response 200 "raw" (some (.obj
        [("choices", .arr [.obj [("message", .obj [("content", .str "hi")])]])]))) =
    .ok ("hi", none) :=
  (C7_amended_groq_decode agent_001 "hello" none 200 "raw"
    (.obj [("choices", .arr [.obj [("message", .obj [("content", .str "hi")])]])])
    (by decide)).1 "hi" rfl

/-- The response-assembly tail of `handle_process_text` (handlers.rs lines
183-219) as a function of the provider outcome; used to state which
provider variant outcome a request consumes. -/
def outcomeResponse (request : JsonRpcRequest) (params : ProcessTextParams)
    (agent : Agent) (elapsed_ms : Nat) :
    Except String (String × Option Nat) → JsonRpcResponse
  | .error err_msg =>
    { jsonrpc := "2.0"
      result := none
      error := some
        { code := -32603
          message := "Internal error: Gemini API processing failed"
          data := some (.obj [("details", .str err_msg)]) }
      id := request.id }
  | .ok (reply_text, tokens_used) =>
    { jsonrpc := "2.0"
      result := some (processTextResultToJson
        { agent_id := params.agent_id
          reply_text := reply_text
          metadata :=
            { model := agent.model
              tokens_used := tokens_used
              processing_time_ms := elapsed_ms
              confidence := 0.95 } })
      error := none
      id := request.id }

/-- C8: provider selection is resolved once at startup — a configured
primary (Groq) credential selects the Primary variant regardless of the
fallback credential, otherwise a configured fallback (Gemini) credential
selects the Fallback variant, otherwise startup is fatal (`none`) — and
every process_text request that reaches the provider call consumes exactly
the outcome of the startup-selected variant, with no per-request
override. -/
theorem C8_provider_selection (state : AppState) (request : JsonRpcRequest)
    (wire : HttpOutcome) (elapsed_ms : Nat) :
    (∀ groq_key gemini_key,
        select_provider (some groq_key) gemini_key = some (groq_key, true)) ∧
    (∀ gemini_key,
        select_provider none (some gemini_key) = some (gemini_key, false)) ∧
    select_provider none none = none ∧
    (∀ pj p a, request.params = some pj → decodeProcessTextParams pj = some p →
       find_agent_by_id p.agent_id = some a →
       ((state.use_groq = true →
          handle_process_text state request wire elapsed_ms
            = outcomeResponse request p a elapsed_ms
                (process_with_groq a p.user_text p.conversation_history wire)) ∧
        (state.use_groq = false →
          handle_process_text state request wire elapsed_ms
            = outcomeResponse request p a elapsed_ms
                (process_with_gemini_api a p.user_text p.conversation_history wire)))) := by
  refine ⟨fun g k => rfl, fun k => rfl, rfl, ?_⟩
  intro pj p a hpj hdec hfind
  constructor
  · intro hu
    simp only [handle_process_text, hpj, hdec, hfind, process_with_gemini, hu,
      if_true]
    cases ho : process_with_groq a p.user_text p.conversation_history wire with
    | error e => simp [outcomeResponse]
    | ok v => cases v; simp [outcomeResponse]
  · intro hu
    simp only [handle_process_text, hpj, hdec, hfind, process_with_gemini, hu,
      Bool.false_eq_true, if_false]
    cases ho : process_with_gemini_api a p.user_text p.conversation_history wire with
    | error e => simp [outcomeResponse]
    | ok v => cases v; simp [outcomeResponse]

/-- C8 witness: the three selection cases at concrete credentials, and a
concrete Groq-selected request consuming the outcome of the Primary variant. -/
theorem C8_provider_selection_witness :
    select_provider (some "gk") (some "mk") = some ("gk", true) ∧
    select_provider none (some "mk") = some ("mk", false) ∧
    select_provider none none = none ∧
    handle_process_text ⟨"gk", true⟩
      { jsonrpc := "2.0", method := "process_text"
        params := some (.obj [("agent_id", .str "agent_001"),
                              ("user_text", .str "hello")])
        id := .num 9 }
      (.sendError "boom") 1
      = outcomeResponse
          { jsonrpc := "2.0", method := "process_text"
            params := some (.obj [("agent_id", .str "agent_001"),
                                  ("user_text", .str "hello")])
            id := .num 9 }
          ⟨"agent_001", "hello", none⟩ agent_001 1
          (process_with_groq agent_001 "hello" none (.sendError "boom")) :=
  ⟨(C8_provider_selection ⟨"gk", true⟩
      { jsonrpc := "2.0", method := "process_text", params := none, id := .null }
      (.sendError "boom") 1).1 "gk" (some "mk"),
   (C8_provider_selection ⟨"gk", true⟩
      { jsonrpc := "2.0", method := "process_text", params := none, id := .null }
      (.sendError "boom") 1).2.1 "mk",
   (C8_provider_selection ⟨"gk", true⟩
      { jsonrpc := "2.0", method := "process_text", params := none, id := .null }
      (.sendError "boom") 1).2.2.1,
   ((C8_provider_selection ⟨"gk", true⟩
      { jsonrpc := "2.0", method := "process_text"
        params := some (.obj [("agent_id", .str "agent_001"),
                              ("user_text", .str "hello")])
        id := .num 9 }
      (.sendError "boom") 1).2.2.2
      (.obj [("agent_id", .str "agent_001"), ("user_text", .str "hello")])
      ⟨"agent_001", "hello", none⟩ agent_001 rfl rfl rfl).1 rfl⟩

/-- C10: for the Fallback (Gemini) Provider on a 2xx status, a body whose
JSON decodes to a `GeminiResponse` with an empty candidates list yields a
success carrying the fixed fallback phrase (a soft fail, not a
DecodeError), while a body that fails to parse as the expected schema
(or is not valid JSON at all) remains a hard decode failure. -/
theorem C10_empty_candidates_soft_fail (agent : Agent) (user_text : String)
    (conversation_history : Option (List Message)) (status : Nat)
    (raw : String) (h2xx : statusIsSuccess status) :
    (∀ j gr, decodeGeminiResponse j = some gr → gr.candidates = [] →
       process_with_gemini_api agent user_text conversation_history
           (.response status raw (some j))
         = .ok ("Sorry, I couldn\x27t generate a response.",
                gr.usage_metadata.bind GeminiUsageMetadata.total_token_count)) ∧
    (∀ j, decodeGeminiResponse j = none →
       process_with_gemini_api agent user_text conversation_history
           (.response status raw (some j))
         = .error ("Failed to parse Gemini response. Raw: " ++ raw)) ∧
    (process_with_gemini_api agent user_text conversation_history
         (.response status raw none)
       = .error ("Failed to parse Gemini response. Raw: " ++ raw)) := by
  refine ⟨?_, ?_, ?_⟩
  · intro j gr hdec hcand
    simp [process_with_gemini_api, h2xx, hdec, hcand]
  · intro j hdec
    simp [process_with_gemini_api, h2xx, hdec]
  · simp [process_with_gemini_api, h2xx]

/-- C10 witness: a concrete 2xx Gemini body with an empty candidates list
yields the fallback phrase as a successful outcome. -/
theorem C10_empty_candidates_soft_fail_witness :
    process_with_gemini_api agent_001 "hello" none
      (.response 200 "raw-body" (some (.obj [("candidates", .arr [])]))) =
    .ok ("Sorry, I couldn\x27t generate a response.", none) :=
  (C10_empty_candidates_soft_fail agent_001 "hello" none 200 "raw-body"
    (by decide)).1 (.obj [("candidates", .arr [])]) ⟨[], none⟩ rfl rfl

end McpServer
